import Mathlib

/-!
Verification of the Heytech device-protocol engine
(`custom_components/heytech/parse_helper.py` and
`custom_components/heytech/api.py`) against its natural-language
specification.

Python strings are modelled as `String` / `List Char` (ASCII fragment of
Python semantics: `str.strip`, `str.split`, `str.find`, `str.rfind`,
slicing, `int(...)`, `str.isdigit`).  Python `dict`s built with unique,
insertion-ordered keys are modelled as association lists; `dict`
assignment (overwrite-or-append) is `dictInsert`.  Code that can raise an
exception is modelled with `Option`, `none` standing for the raised
exception escaping the function.
-/

namespace Heytech

/-! ## Python string primitives -/

/-- Python whitespace for `str.strip()` (ASCII fragment). -/
def isPyWs (c : Char) : Bool :=
  c == ' ' || c == '\t' || c == '\n' || c == '\r' || c == '\x0b' || c == '\x0c'

/-- Python `s.strip()` on a character list. -/
def pyStrip (l : List Char) : List Char :=
  ((l.dropWhile isPyWs).reverse.dropWhile isPyWs).reverse

/-- Python `s.strip(chars)` for a single strip character. -/
def pyStripChar (c : Char) (l : List Char) : List Char :=
  ((l.dropWhile (· == c)).reverse.dropWhile (· == c)).reverse

/-- Python `s.strip()` on `String`. -/
def pyStripS (s : String) : String := ⟨pyStrip s.toList⟩

/-- Numeric value of a decimal digit character. -/
def digitVal (c : Char) : ℕ := c.toNat - ('0').toNat

/-- Tail of the digit grammar accepted by Python `int()`:
digits with optional single underscores between digits. -/
def pyIntGo (acc : ℕ) : List Char → Option ℕ
  | [] => some acc
  | '_' :: c :: cs => if c.isDigit then pyIntGo (10 * acc + digitVal c) cs else Option.none
  | c :: cs => if c.isDigit then pyIntGo (10 * acc + digitVal c) cs else Option.none

/-- Unsigned part of Python `int()`: nonempty digit run (underscores allowed
between digits). -/
def pyIntNat : List Char → Option ℕ
  | [] => Option.none
  | c :: cs => if c.isDigit then pyIntGo (digitVal c) cs else Option.none

/-- Python `int(s)` on an already-stripped string (ASCII fragment):
optional sign followed by digits. `none` models a raised `ValueError`. -/
def pyIntChars : List Char → Option Int
  | '+' :: rest => (pyIntNat rest).map Int.ofNat
  | '-' :: rest => (pyIntNat rest).map (fun n => -(n : Int))
  | rest => (pyIntNat rest).map Int.ofNat

/-- Python `s.split(",")`: the empty string yields `[""]`, separators at the
ends yield empty fields. -/
def splitOnComma : List Char → List (List Char)
  | [] => [[]]
  | c :: cs =>
    if c = ',' then [] :: splitOnComma cs
    else
      match splitOnComma cs with
      | h :: t => (c :: h) :: t
      | [] => [[c]]

/-- Python `s.find(pat)` (first index at which `pat` occurs), `none` when
absent. -/
def subIdx (pat : List Char) : List Char → Option ℕ
  | [] => if pat = [] then some 0 else Option.none
  | c :: cs =>
    if pat.isPrefixOf (c :: cs) then some 0 else (subIdx pat cs).map (· + 1)

/-- Python `s.rfind(pat)` (last index at which `pat` occurs), `none` when
absent. -/
def subRIdx (pat l : List Char) : Option ℕ :=
  ((List.range (l.length + 1)).filter (fun i => pat.isPrefixOf (l.drop i))).getLast?

/-- Python slice `s[a:b]` for `0 ≤ a, b`. -/
def pySlice (l : List Char) (a b : ℕ) : List Char := (l.drop a).take (b - a)

/-- Python `str.isdigit()` (ASCII fragment): nonempty and all digits. -/
def pyIsDigit (s : String) : Bool :=
  !s.toList.isEmpty && s.toList.all Char.isDigit

/-- Numeric value of an all-digit string, as consumed by `int()` after a
successful `isdigit()` test. -/
def digitsToNat (d : List Char) : ℕ := d.foldl (fun a c => 10 * a + digitVal c) 0

/-! ## Python dict primitives (insertion-ordered association lists) -/

/-- Python `d[k] = v`: overwrite in place when the key exists, else append. -/
def dictInsert [DecidableEq κ] (k : κ) (v : α) : List (κ × α) → List (κ × α)
  | [] => [(k, v)]
  | (k₂, v₂) :: t => if k₂ = k then (k, v) :: t else (k₂, v₂) :: dictInsert k v t

/-- Python `d.get(k)`. -/
def dictLookup [DecidableEq κ] (k : κ) : List (κ × α) → Option α
  | [] => Option.none
  | (k₂, v) :: t => if k₂ = k then some v else dictLookup k t

/-- Python list comprehension `[f(x) for x in l]` where `f` may raise:
`none` when any element raises. -/
def listMapM (f : α → Option β) : List α → Option (List β)
  | [] => some []
  | a :: t =>
    match f a, listMapM f t with
    | some b, some r => some (b :: r)
    | _, _ => Option.none

/-- Python `l[n] = b` (after a successful bounds check). -/
def listSetAt : List α → ℕ → α → List α
  | [], _, _ => []
  | _ :: t, 0, b => b :: t
  | a :: t, n + 1, b => a :: listSetAt t n b

/-- Python `l[n]` as an option. -/
def nth? : List α → ℕ → Option α
  | [], _ => Option.none
  | a :: _, 0 => some a
  | _ :: t, n + 1 => nth? t n

/-- Python `l[n]` with a default (used only under a length guard). -/
def nthD : List α → ℕ → α → α
  | [], _, d => d
  | a :: _, 0, _ => a
  | _ :: t, n + 1, d => nthD t n d

/-! ## parse_helper.py constants -/

def MAX_CHANNELS : ℕ := 32

def MAX_POSITION : Int := 132

def START_SOP : String := "start_sop"

def END_SOP : String := "ende_sop"

def START_SKD : String := "start_skd"

def END_SKD : String := "ende_skd"

def START_SMN : String := "start_smn"

def END_SMN : String := "ende_smn"

/-! ## parse_sop_shutter_positions -/

/-- Value stored for one comma-separated field of a `sop` payload:
empty after stripping ⇒ 0; unparseable ⇒ 0; outside `0..MAX_POSITION` ⇒ 0;
otherwise the parsed value. -/
def sopFieldValue (field : List Char) : Int :=
  if pyStrip field = [] then 0
  else
    match pyIntChars (pyStrip field) with
    | some v => if 0 ≤ v ∧ v ≤ MAX_POSITION then v else 0
    | Option.none => 0

/-- The `for idx, position in enumerate(positions_list, start=1)` loop of
`parse_sop_shutter_positions`, with its `break` once `idx > MAX_CHANNELS`. -/
def sopLoop : ℕ → List (List Char) → List (ℕ × Int)
  | _, [] => []
  | idx, f :: fs =>
    if MAX_CHANNELS < idx then []
    else (idx, sopFieldValue f) :: sopLoop (idx + 1) fs

/-- The payload slice of a `sop` line carrying both markers:
`line[line.find("start_sop") + 9 : line.rfind("ende_sop")]`. -/
def sopPayload (line : String) : List Char :=
  pySlice line.toList
    ((subIdx (START_SOP.toList) line.toList).getD 0 + (START_SOP.toList).length)
    ((subRIdx (END_SOP.toList) line.toList).getD 0)

/-- `parse_helper.parse_sop_shutter_positions`. -/
def parse_sop_shutter_positions (line : String) : List (ℕ × Int) :=
  if (subIdx (START_SOP.toList) line.toList).isSome ∧
      (subIdx (END_SOP.toList) line.toList).isSome then
    sopLoop 1 (splitOnComma (sopPayload line))
  else if (subIdx (END_SOP.toList) line.toList).isSome then
    sopLoop 1
      (splitOnComma
        (pyStripChar ','
          (line.toList.take ((subIdx (END_SOP.toList) line.toList).getD 0))))
  else []

/-! ## parse_skd_climate_data

`parse_skd_climate_data` returns the Python dict with the thirteen keys
below (wire fields 13 and 16 are unused).  Values are dynamically `None`,
`int` or `float`; floats are modelled as rationals.  The function body can
raise: `data_list[16] = None` raises `IndexError` on fewer than 17 fields,
`int(...)` raises `ValueError` on non-numeric fields, and
`float(f"{a}.{b}")` raises `ValueError` when `b` is negative.  A raised
exception is modelled as `Option.none` for the whole call. -/

/-- A value of the climate dict: Python `None`, `int`, or `float`. -/
inductive ClimVal where
  | absent
  | ofInt (z : Int)
  | ofFloat (q : ℚ)
deriving DecidableEq

/-- The dict built by `parse_skd_climate_data`, fields in assignment order;
Lean field names stand for the Python string keys ("brightness",
"indoor temperature", ..., "relative humidity"). -/
structure ClimateData where
  brightness : ClimVal
  indoorTemperature : ClimVal
  indoorTemperatureMin : ClimVal
  indoorTemperatureMax : ClimVal
  outdoorTemperature : ClimVal
  outdoorTemperatureMin : ClimVal
  outdoorTemperatureMax : ClimVal
  currentWindSpeed : ClimVal
  currentWindSpeedMax : ClimVal
  alarm : ClimVal
  rain : ClimVal
  brightnessMedium : ClimVal
  relativeHumidity : ClimVal
deriving DecidableEq

/-- Result of `parse_skd_climate_data` when no exception is raised: the
empty dict (markers absent) or the full climate dict. -/
inductive SkdResult where
  | empty
  | data (cd : ClimateData)
deriving DecidableEq

/-- The `int(data) if data is not None else data` comprehension step for one
element; outer `none` models the `ValueError` raised by `int`. -/
def convInt : Option (List Char) → Option (Option Int)
  | Option.none => some Option.none
  | some s => (pyIntChars s).map some

/-- Number of characters in the decimal representation of `n` (the length
of `f"{n}"` for `n ≥ 0`). -/
def digitLen (n : ℕ) : ℕ := (Nat.toDigits 10 n).length

/-- Python `float(f"{a}.{b}")` for ints `a`, `b`: raises (`none`) when `b`
is negative (the rendered text `"x.-y"` is not a float literal), otherwise
the decimal `a.b`. -/
def pyFloatDot (a b : Int) : Option ℚ :=
  if b < 0 then Option.none
  else
    some
      (if a < 0 then (a : ℚ) - (b : ℚ) / (10 : ℚ) ^ digitLen b.toNat
       else (a : ℚ) + (b : ℚ) / (10 : ℚ) ^ digitLen b.toNat)

/-- One combined temperature field:
`float(f"{x}.{y}") if x is not None and y is not None else None`.
Outer `none` models the `float` call raising. -/
def combineTemp : Option Int → Option Int → Option ClimVal
  | some a, some b => (pyFloatDot a b).map ClimVal.ofFloat
  | _, _ => some ClimVal.absent

/-- A plain dict value taken directly from the converted field list. -/
def toClim : Option Int → ClimVal
  | Option.none => ClimVal.absent
  | some z => ClimVal.ofInt z

/-- The `data if data != "999" else None` comprehension step. -/
def skdSentinel (fields : List (List Char)) : List (Option (List Char)) :=
  fields.map (fun s => if s = ("999").toList then Option.none else some s)

/-- Body of `parse_skd_climate_data` on the whitespace-stripped,
comma-split payload fields: `999` becomes `None`, index 16 is overwritten
with `None` (raising `IndexError` when absent), remaining fields are
converted with `int`, and the dict is assembled. -/
def skdFromFields (fields : List (List Char)) : Option ClimateData :=
  if (skdSentinel fields).length ≤ 16 then Option.none
  else
    match listMapM convInt (listSetAt (skdSentinel fields) 16 Option.none) with
    | Option.none => Option.none
    | some vals =>
      match combineTemp (nthD vals 1 Option.none) (nthD vals 2 Option.none),
            combineTemp (nthD vals 5 Option.none) (nthD vals 6 Option.none) with
      | some indoor, some outdoor =>
        some
          { brightness := toClim (nthD vals 0 Option.none)
            indoorTemperature := indoor
            indoorTemperatureMin := toClim (nthD vals 3 Option.none)
            indoorTemperatureMax := toClim (nthD vals 4 Option.none)
            outdoorTemperature := outdoor
            outdoorTemperatureMin := toClim (nthD vals 7 Option.none)
            outdoorTemperatureMax := toClim (nthD vals 8 Option.none)
            currentWindSpeed := toClim (nthD vals 9 Option.none)
            currentWindSpeedMax := toClim (nthD vals 10 Option.none)
            alarm := toClim (nthD vals 11 Option.none)
            rain := toClim (nthD vals 12 Option.none)
            brightnessMedium := toClim (nthD vals 14 Option.none)
            relativeHumidity := toClim (nthD vals 15 Option.none) }
      | _, _ => Option.none

/-- The stripped comma-split payload fields of an `skd` line (the
`data_list` after the strip step). -/
def skdFields (line : String) : List (List Char) :=
  (splitOnComma
      (pySlice line.toList
        ((subIdx (START_SKD.toList) line.toList).getD 0 + (START_SKD.toList).length)
        ((subRIdx (END_SKD.toList) line.toList).getD 0))).map
    pyStrip

/-- `parse_helper.parse_skd_climate_data`; `Option.none` models an
exception escaping the call. -/
def parse_skd_climate_data (line : String) : Option SkdResult :=
  if (subIdx (START_SKD.toList) line.toList).isSome ∧
      (subIdx (END_SKD.toList) line.toList).isSome then
    (skdFromFields (skdFields line)).map SkdResult.data
  else some SkdResult.empty

/-! ## parse_smn_motor_names_output

`re.match(r"start_smn(\d+),(.+?),(\d+),ende_smn", line)`, matched at the
start of the line: greedy digit group, comma, non-greedy name group (at
least one character, no newline), comma, greedy digit group, literal
`,ende_smn`.  The returned singleton dict `{name: {"channel": channel}}`
is modelled as `some (name, channel)`. -/

/-- Maximal leading digit run and the remainder (regex `\d+` followed by a
non-digit literal). -/
def digitRun : List Char → List Char × List Char
  | [] => ([], [])
  | c :: cs =>
    if c.isDigit then
      let p := digitRun cs
      (c :: p.1, p.2)
    else ([], c :: cs)

/-- Does `,(\d+),ende_smn` match at this position? -/
def smnTailMatch (l : List Char) : Bool :=
  match l with
  | ',' :: rest =>
    let p := digitRun rest
    !p.1.isEmpty && (",ende_smn").toList.isPrefixOf p.2
  | _ => false

/-- Non-greedy expansion of the name group `(.+?)`: extend the accumulated
(reversed) name one character at a time until the tail pattern matches;
`.` never matches a newline. -/
def smnScan (acc rest : List Char) : Option (List Char) :=
  if smnTailMatch rest then some acc.reverse
  else
    match rest with
    | [] => Option.none
    | c :: cs => if c = '\n' then Option.none else smnScan (c :: acc) cs

/-- The anchored regex match of `parse_smn_motor_names_output`, returning
`(group(2).strip(), int(group(1)))`. -/
def smnMatch (l : List Char) : Option (String × ℕ) :=
  if (START_SMN.toList).isPrefixOf l then
    let rest := l.drop (START_SMN.toList).length
    let p := digitRun rest
    if p.1 = [] then Option.none
    else
      match p.2 with
      | ',' :: r₂ =>
        match r₂ with
        | [] => Option.none
        | c :: cs =>
          if c = '\n' then Option.none
          else
            match smnScan [c] cs with
            | some t => some (⟨pyStrip t⟩, digitsToNat p.1)
            | Option.none => Option.none
      | _ => Option.none
  else Option.none

/-- `parse_helper.parse_smn_motor_names_output`. -/
def parse_smn_motor_names_output (line : String) : Option (String × ℕ) :=
  let l := line.toList
  if (subIdx (START_SMN.toList) l).isSome ∧ (subIdx (END_SMN.toList) l).isSome then
    smnMatch l
  else Option.none

/-! ## api.py: constants and the smn branch of _read_output -/

def MAX_RETRIES : ℕ := 3

def FULLY_OPEN : ℕ := 100

def FULLY_CLOSED : ℕ := 0

def SCENARIO_CHANNEL_START : ℕ := 65

/-- One entry of `self.shutters`: `{"channel": channel, "name": name}`. -/
structure ShutterEntry where
  channel : ℕ
  name : String
deriving DecidableEq

/-- The shutter/scenario portion of the client state mutated by the `smn`
branch of `_read_output`. -/
structure DeviceState where
  shutters : List (String × ShutterEntry)
  scenarios : List (ℕ × String)
deriving DecidableEq

/-- The classification step of `_read_output` for one parsed `smn` entry:
channels at or above `SCENARIO_CHANNEL_START` become scenarios numbered
`channel - 64`, the rest become shutters keyed by name. -/
def smnApply (st : DeviceState) (name : String) (channel : ℕ) : DeviceState :=
  if SCENARIO_CHANNEL_START ≤ channel then
    { st with scenarios := dictInsert (channel - 64) (pyStripS name) st.scenarios }
  else
    { st with shutters := dictInsert name ⟨channel, name⟩ st.shutters }

/-- Decode-and-apply for one received `smn` line: parse, then classify each
(single) returned entry. -/
def smnStep (st : DeviceState) (line : String) : DeviceState :=
  match parse_smn_motor_names_output line with
  | some (name, channel) => smnApply st name channel
  | Option.none => st

/-! ## api.py: connect -/

/-- The `while not self.connected and retries < MAX_RETRIES` loop of
`HeytechApiClient.connect`, with `success i` the outcome of the `i`-th TCP
connection attempt.  The fuel argument is `MAX_RETRIES - retries`; the
result is the index of the successful attempt, or `none` for the
`IntegrationHeytechApiClientCommunicationError` raised after the loop. -/
def connectLoop (success : ℕ → Bool) : ℕ → ℕ → Option ℕ
  | 0, _ => Option.none
  | fuel + 1, i => if success i then some i else connectLoop success fuel (i + 1)

/-- `HeytechApiClient.connect` for a client that starts disconnected. -/
def connect (success : ℕ → Bool) : Option ℕ :=
  connectLoop success MAX_RETRIES 0

/-! ## api.py: _process_commands (two-priority dispatch) -/

/-- One selection of `_process_commands`: take the head of the user queue
when it is non-empty, otherwise `get_nowait` from the periodic queue; the
Bool records `is_user_command`. -/
def selectCommand (s : List (List String) × List (List String)) :
    Option ((List String × Bool) × (List (List String) × List (List String))) :=
  match s with
  | (c :: us, ps) => some ((c, true), (us, ps))
  | ([], c :: ps) => some ((c, false), ([], ps))
  | ([], []) => Option.none

/-- The `while not (both queues empty)` dispatch loop, emitting commands in
send order tagged with `is_user_command`. -/
def dispatchLoop : ℕ → List (List String) × List (List String) → List (List String × Bool)
  | 0, _ => []
  | fuel + 1, s =>
    match selectCommand s with
    | Option.none => []
    | some (e, s₂) => e :: dispatchLoop fuel s₂

/-- `_process_commands` run to completion from initially injected queues
(no mid-run arrivals). -/
def processCommands (u p : List (List String)) : List (List String × Bool) :=
  dispatchLoop (u.length + p.length) (u, p)

/-! ## api.py: _generate_shutter_command -/

/-- The verb computation of `_generate_shutter_command`: the
`command_map` lookup, then the `action.isdigit()` branch comparing
`int(action)` with `FULLY_CLOSED` and `FULLY_OPEN`. -/
def shutterVerb (action : String) : String :=
  if action = ("open") then ("up")
  else if action = ("close") then ("down")
  else if action = ("stop") then ("off")
  else if pyIsDigit action then
    let v := digitsToNat action.toList
    if v = FULLY_CLOSED then ("down")
    else if v = FULLY_OPEN then ("up")
    else action
  else action

/-- The eight literal lines appended per channel by the
`for channel in channels` loop. -/
def channelBlock (ch : ℕ) (verb : String) : List String :=
  [("rhi\r\n"), ("\r\n"), ("rhb\r\n"), toString ch ++ ("\r\n"),
   verb ++ ("\r\n"), ("\r\n"), ("rhe\r\n"), ("\r\n")]

/-- `HeytechApiClient._generate_shutter_command`; `pin` is `self._pin`. -/
def generate_shutter_command (pin action : String) (channels : List ℕ) : List String :=
  let verb := shutterVerb action
  let cmds := if pin ≠ ("") then [("rsc\r\n"), pin ++ ("\r\n")] else []
  if channels = [] then cmds ++ [verb ++ ("\r\n")]
  else channels.foldl (fun acc ch => acc ++ channelBlock ch verb) cmds

/-- The verb mapping in the words of the amended claim C7: `open`, `close`
and `stop` map to the device verbs; an all-digit action whose numeric
value is 0 maps to `down` and one whose value is 100 maps to `up`; every
other action passes through literally. -/
def claimVerb (action : String) : String :=
  if action = ("open") then ("up")
  else if action = ("close") then ("down")
  else if action = ("stop") then ("off")
  else if pyIsDigit action && decide (digitsToNat action.toList = 0) then ("down")
  else if pyIsDigit action && decide (digitsToNat action.toList = 100) then ("up")
  else action

/-! ## Helper lemmas -/

theorem sopFieldValue_bounds (f : List Char) :
    0 ≤ sopFieldValue f ∧ sopFieldValue f ≤ MAX_POSITION := by
  unfold sopFieldValue
  split
  · decide
  · split
    · split
      · rename_i h
        exact h
      · decide
    · decide

theorem mem_sopLoop {k : ℕ} {v : Int} :
    ∀ (fs : List (List Char)) (idx : ℕ), (k, v) ∈ sopLoop idx fs →
      idx ≤ k ∧ k ≤ MAX_CHANNELS ∧ 0 ≤ v ∧ v ≤ MAX_POSITION := by
  intro fs
  induction fs with
  | nil =>
    intro idx h
    simp [sopLoop] at h
  | cons f fs ih =>
    intro idx h
    simp only [sopLoop] at h
    split at h
    · simp at h
    · rename_i hidx
      rcases List.mem_cons.mp h with h₁ | h₂
      · rw [Prod.mk.injEq] at h₁
        obtain ⟨hk, hv⟩ := h₁
        subst hk
        subst hv
        exact ⟨le_refl _, Nat.le_of_not_lt hidx, sopFieldValue_bounds f⟩
      · have h₃ := ih (idx + 1) h₂
        exact ⟨Nat.le_of_succ_le h₃.1, h₃.2⟩

theorem sopLoop_take :
    ∀ (fs : List (List Char)) (idx : ℕ),
      sopLoop idx fs = sopLoop idx (fs.take (MAX_CHANNELS + 1 - idx)) := by
  intro fs
  induction fs with
  | nil =>
    intro idx
    simp
  | cons f fs ih =>
    intro idx
    by_cases h : MAX_CHANNELS < idx
    · rw [Nat.sub_eq_zero_of_le h]
      simp [sopLoop, h]
    · have h₁ : MAX_CHANNELS + 1 - idx = (MAX_CHANNELS + 1 - (idx + 1)) + 1 := by
        omega
      rw [h₁, List.take_succ_cons]
      rw [sopLoop, sopLoop, if_neg h, if_neg h, ih (idx + 1)]

/-! ## Claims C1, C4, C10: parse_sop_shutter_positions -/

/-- C1, counterexample: the wire value 120 lies outside 0..100 but is
stored as 120, not clamped to 0, because the code's bound is
`MAX_POSITION = 132`. -/
theorem c1_counterexample :
    parse_sop_shutter_positions ("start_sop120ende_sop") = [(1, 120)] ∧
      ¬((120 : Int) ≤ 100) := by
  decide

/-- C1 (amended): every position value decoded from a `sop` line satisfies
`0 ≤ p ≤ MAX_POSITION = 132`, and each wire field is either stored as 0
(empty, unparseable, or outside `0..132`) or stored as its in-band parsed
value. -/
theorem c1_amended :
    (∀ (line : String) (k : ℕ) (v : Int),
        (k, v) ∈ parse_sop_shutter_positions line → 0 ≤ v ∧ v ≤ MAX_POSITION) ∧
    (∀ f : List Char,
        sopFieldValue f = 0 ∨
          ∃ z : Int, pyIntChars (pyStrip f) = some z ∧
            0 ≤ z ∧ z ≤ MAX_POSITION ∧ sopFieldValue f = z) := by
  constructor
  · intro line k v h
    unfold parse_sop_shutter_positions at h
    split at h
    · exact (mem_sopLoop _ _ h).2.2
    · split at h
      · exact (mem_sopLoop _ _ h).2.2
      · simp at h
  · intro f
    unfold sopFieldValue
    split
    · exact Or.inl rfl
    · split
      · rename_i v hv
        split
        · rename_i hrange
          exact Or.inr ⟨v, hv, hrange.1, hrange.2, rfl⟩
        · exact Or.inl rfl
      · exact Or.inl rfl

theorem c1_amended_witness :
    (0 : Int) ≤ 50 ∧ (50 : Int) ≤ MAX_POSITION :=
  c1_amended.1 ("start_sop50ende_sop") 1 50 (by decide)

/-- C4, counterexample: the scenario line carries a trailing comma, so the
split payload has an empty fourth field, which the parser stores as
channel 4 with value 0; the result is not the three-entry map the claim
states. -/
theorem c4_counterexample :
    parse_sop_shutter_positions ("start_sop10,0,100,ende_sop") =
        [(1, 10), (2, 0), (3, 100), (4, 0)] ∧
      parse_sop_shutter_positions ("start_sop10,0,100,ende_sop") ≠
        [(1, 10), (2, 0), (3, 100)] := by
  decide

/-- C4 (amended): `start_sop10,0,100,ende_sop` decodes to
`{1:10, 2:0, 3:100, 4:0}` — the trailing comma yields an empty fourth
field stored as 0. -/
theorem c4_amended :
    parse_sop_shutter_positions ("start_sop10,0,100,ende_sop") =
      [(1, 10), (2, 0), (3, 100), (4, 0)] := by
  decide

/-- C10: every key of a decoded `sop` map lies in `1..MAX_CHANNELS = 32`,
and payload fields after the 32nd never influence the result (the
enumeration loop breaks at the hard-coded cap, regardless of the
device-reported channel count). -/
theorem c10_channel_cap :
    (∀ (line : String) (k : ℕ) (v : Int),
        (k, v) ∈ parse_sop_shutter_positions line → 1 ≤ k ∧ k ≤ MAX_CHANNELS) ∧
    (∀ fields : List (List Char),
        sopLoop 1 fields = sopLoop 1 (fields.take MAX_CHANNELS)) := by
  constructor
  · intro line k v h
    unfold parse_sop_shutter_positions at h
    split at h
    · exact ⟨(mem_sopLoop _ _ h).1, (mem_sopLoop _ _ h).2.1⟩
    · split at h
      · exact ⟨(mem_sopLoop _ _ h).1, (mem_sopLoop _ _ h).2.1⟩
      · simp at h
  · intro fields
    simpa using sopLoop_take fields 1

theorem c10_channel_cap_witness : 1 ≤ 1 ∧ 1 ≤ MAX_CHANNELS :=
  c10_channel_cap.1 ("start_sop10,0,100,ende_sop") 1 10 (by decide)

/-! ## Claim C2: connect retry accounting -/

/-- C2, counterexample: with three consecutive connection failures and the
fourth attempt available to succeed, `connect` has already exhausted
`MAX_RETRIES = 3` attempts and raises (models `CommunicationError`); the
claimed fourth attempt is never made. -/
theorem c2_counterexample :
    connect (fun i => decide (3 ≤ i)) = Option.none ∧
      (fun i => decide (3 ≤ i)) 0 = false ∧
      (fun i => decide (3 ≤ i)) 1 = false ∧
      (fun i => decide (3 ≤ i)) 2 = false ∧
      (fun i => decide (3 ≤ i)) 3 = true := by
  decide

/-- C2 (amended): `connect` makes at most `MAX_RETRIES = 3` TCP attempts:
two consecutive failures followed by a success let the engine proceed,
while a third consecutive failure raises `CommunicationError`. -/
theorem c2_amended :
    (∀ s : ℕ → Bool,
        s 0 = false → s 1 = false → s 2 = true → connect s = some 2) ∧
    (∀ s : ℕ → Bool,
        s 0 = false → s 1 = false → s 2 = false → connect s = Option.none) := by
  constructor <;>
    · intro s h0 h1 h2
      simp [connect, connectLoop, MAX_RETRIES, h0, h1, h2]

theorem c2_amended_witness :
    connect (fun i => decide (i = 2)) = some 2 ∧
      connect (fun _ => false) = Option.none :=
  ⟨c2_amended.1 (fun i => decide (i = 2)) rfl rfl rfl,
   c2_amended.2 (fun _ => false) rfl rfl rfl⟩

/-! ## Claim C5: two-priority dispatch -/

theorem dispatchLoop_split :
    ∀ (u p : List (List String)) (fuel : ℕ), u.length + p.length ≤ fuel →
      dispatchLoop fuel (u, p) =
        u.map (fun c => (c, true)) ++ p.map (fun c => (c, false)) := by
  intro u
  induction u with
  | nil =>
    intro p
    induction p with
    | nil =>
      intro fuel _
      cases fuel <;> simp [dispatchLoop, selectCommand]
    | cons c ps ih =>
      intro fuel hf
      cases fuel with
      | zero => simp at hf
      | succ n =>
        simp only [dispatchLoop, selectCommand]
        rw [ih n (by simp at hf ⊢; omega)]
        simp
  | cons c us ih =>
    intro p fuel hf
    cases fuel with
    | zero => simp at hf
    | succ n =>
      simp only [dispatchLoop, selectCommand]
      rw [ih p n (by simp at hf ⊢; omega)]
      simp

/-- C5: the dispatch loop never takes a periodic command while the user
queue is non-empty (every selection of a periodic command happens at a
state whose user queue is empty), and with both queues injected non-empty
all user commands are sent before any periodic command. -/
theorem c5_user_priority :
    (∀ (s : List (List String) × List (List String)) (c : List String)
        (s₂ : List (List String) × List (List String)),
        selectCommand s = some ((c, false), s₂) → s.1 = []) ∧
    (∀ u p : List (List String),
        processCommands u p =
          u.map (fun c => (c, true)) ++ p.map (fun c => (c, false))) := by
  constructor
  · intro s c s₂ h
    obtain ⟨u, p⟩ := s
    cases u with
    | nil => rfl
    | cons a us =>
      simp [selectCommand] at h
  · intro u p
    exact dispatchLoop_split u p (u.length + p.length) (le_refl _)

theorem c5_user_priority_witness :
    processCommands [[("up\r\n")]] [[("sop\r\n")]] =
        [([("up\r\n")], true), ([("sop\r\n")], false)] ∧
      ([] : List (List String)) = [] :=
  ⟨c5_user_priority.2 [[("up\r\n")]] [[("sop\r\n")]],
   c5_user_priority.1 ([], [[("sop\r\n")]]) [("sop\r\n")] ([], []) rfl⟩

/-! ## Claims C6, C9: smn classification and idempotence -/

theorem dictInsert_idem [DecidableEq κ] (k : κ) (v : α) :
    ∀ l : List (κ × α), dictInsert k v (dictInsert k v l) = dictInsert k v l := by
  intro l
  induction l with
  | nil => simp [dictInsert]
  | cons p t ih =>
    obtain ⟨k₂, v₂⟩ := p
    by_cases h : k₂ = k
    · simp [dictInsert, h]
    · simp [dictInsert, h, ih]

theorem dictLookup_dictInsert [DecidableEq κ] (k : κ) (v : α) :
    ∀ l : List (κ × α), dictLookup k (dictInsert k v l) = some v := by
  intro l
  induction l with
  | nil => simp [dictInsert, dictLookup]
  | cons p t ih =>
    obtain ⟨k₂, v₂⟩ := p
    by_cases h : k₂ = k
    · simp [dictInsert, dictLookup, h]
    · simp [dictInsert, dictLookup, h, ih]

/-- C6: for every decoded `smn` name frame, a channel at or above the
threshold 65 is recorded only as a scenario numbered `channel - 64` (the
shutter table is untouched), and a channel below the threshold is recorded
only as a shutter (the scenario table is untouched). -/
theorem c6_scenario_threshold :
    ∀ (st : DeviceState) (line name : String) (ch : ℕ),
      parse_smn_motor_names_output line = some (name, ch) →
        (SCENARIO_CHANNEL_START ≤ ch →
          (smnStep st line).shutters = st.shutters ∧
            dictLookup (ch - 64) (smnStep st line).scenarios =
              some (pyStripS name)) ∧
        (ch < SCENARIO_CHANNEL_START →
          (smnStep st line).scenarios = st.scenarios ∧
            dictLookup name (smnStep st line).shutters = some ⟨ch, name⟩) := by
  intro st line name ch h
  simp only [smnStep, h]
  constructor
  · intro hch
    unfold smnApply
    rw [if_pos hch]
    exact ⟨rfl, dictLookup_dictInsert _ _ _⟩
  · intro hch
    unfold smnApply
    rw [if_neg (Nat.not_le_of_lt hch)]
    exact ⟨rfl, dictLookup_dictInsert _ _ _⟩

theorem c6_scenario_threshold_witness :
    ((smnStep ⟨[], []⟩ ("start_smn65,Evening,0,ende_smn")).shutters = [] ∧
      dictLookup 1
          (smnStep ⟨[], []⟩ ("start_smn65,Evening,0,ende_smn")).scenarios =
        some (pyStripS ("Evening"))) ∧
    ((smnStep ⟨[], []⟩ ("start_smn64,Kitchen,0,ende_smn")).scenarios = [] ∧
      dictLookup ("Kitchen")
          (smnStep ⟨[], []⟩ ("start_smn64,Kitchen,0,ende_smn")).shutters =
        some ⟨64, ("Kitchen")⟩) :=
  ⟨(c6_scenario_threshold ⟨[], []⟩ _ ("Evening") 65 (by decide)).1 (by decide),
   (c6_scenario_threshold ⟨[], []⟩ _ ("Kitchen") 64 (by decide)).2 (by decide)⟩

/-- C9: decoding and applying the same `smn` frame twice leaves the
shutter/scenario state exactly as applying it once — the entry is keyed
and overwritten, never duplicated or appended. -/
theorem c9_smn_idempotent :
    ∀ (st : DeviceState) (line : String),
      smnStep (smnStep st line) line = smnStep st line := by
  intro st line
  cases h : parse_smn_motor_names_output line with
  | none => simp only [smnStep, h]
  | some p =>
    obtain ⟨name, ch⟩ := p
    simp only [smnStep, h]
    by_cases hch : SCENARIO_CHANNEL_START ≤ ch
    · simp [smnApply, hch, dictInsert_idem]
    · simp [smnApply, hch, dictInsert_idem]

/-! ## Claim C7: _generate_shutter_command -/

theorem strToList_append (a b : String) :
    (a ++ b).toList = a.toList ++ b.toList := by
  simp [String.toList]

theorem isSuffix_crlf (s : String) :
    List.IsSuffix (['\r', '\n']) ((s ++ ("\r\n")).toList) :=
  ⟨s.toList, by
    rw [strToList_append]
    have h : ("\r\n").toList = ['\r', '\n'] := by decide
    rw [h]⟩

theorem shutterVerb_eq_claimVerb : ∀ action : String, shutterVerb action = claimVerb action := by
  intro a
  unfold shutterVerb claimVerb FULLY_CLOSED FULLY_OPEN
  split_ifs <;> simp_all

theorem foldl_channelBlock (verb : String) :
    ∀ (channels : List ℕ) (init : List String),
      channels.foldl (fun acc ch => acc ++ channelBlock ch verb) init =
        init ++ (channels.map (fun ch => channelBlock ch verb)).flatten := by
  intro channels
  induction channels with
  | nil => simp
  | cons c cs ih =>
    intro init
    simp only [List.foldl_cons, List.map_cons, List.flatten_cons, ih]
    rw [List.append_assoc]

theorem mem_channelBlock_crlf (verb : String) (ch : ℕ) :
    ∀ cmd ∈ channelBlock ch verb, List.IsSuffix (['\r', '\n']) cmd.toList := by
  intro cmd hm
  simp only [channelBlock, List.mem_cons, List.not_mem_nil, or_false] at hm
  rcases hm with h | h | h | h | h | h | h | h <;> subst h
  · exact ⟨("rhi").toList, by decide⟩
  · exact ⟨[], by decide⟩
  · exact ⟨("rhb").toList, by decide⟩
  · exact isSuffix_crlf _
  · exact isSuffix_crlf _
  · exact ⟨[], by decide⟩
  · exact ⟨("rhe").toList, by decide⟩
  · exact ⟨[], by decide⟩

/-- C7, counterexample: the action `"00"` is not one of
`open/close/stop/'0'/'100'`, yet it is not passed through literally — the
code compares `int(action)` with the bounds, so `"00"` encodes as the verb
`down`. -/
theorem c7_counterexample :
    generate_shutter_command ("") ("00") [1] =
        [("rhi\r\n"), ("\r\n"), ("rhb\r\n"), ("1\r\n"), ("down\r\n"), ("\r\n"),
          ("rhe\r\n"), ("\r\n")] ∧
      generate_shutter_command ("") ("00") [1] ≠
        [("rhi\r\n"), ("\r\n"), ("rhb\r\n"), ("1\r\n"), ("00\r\n"), ("\r\n"),
          ("rhe\r\n"), ("\r\n")] := by
  decide

/-- C7 (amended): for a non-empty channel list the encoded command list is
the PIN auth prefix (when a PIN is configured) followed by one complete
hand-control bracket per channel, in channel order, with the verb given by
`open→up`, `close→down`, `stop→off`, all-digit actions of numeric value 0
→ `down` and of value 100 → `up`, and any other action passed through
literally; every emitted line ends with CRLF. -/
theorem c7_amended :
    ∀ (pin action : String) (channels : List ℕ), channels ≠ [] →
      generate_shutter_command pin action channels =
        (if pin ≠ ("") then [("rsc\r\n"), pin ++ ("\r\n")] else []) ++
          (channels.map (fun ch => channelBlock ch (claimVerb action))).flatten ∧
      ∀ cmd ∈ generate_shutter_command pin action channels,
        List.IsSuffix (['\r', '\n']) cmd.toList := by
  intro pin action channels hne
  have heq :
      generate_shutter_command pin action channels =
        (if pin ≠ ("") then [("rsc\r\n"), pin ++ ("\r\n")] else []) ++
          (channels.map (fun ch => channelBlock ch (claimVerb action))).flatten := by
    unfold generate_shutter_command
    rw [if_neg hne, foldl_channelBlock, shutterVerb_eq_claimVerb]
  refine ⟨heq, ?_⟩
  intro cmd hm
  rw [heq] at hm
  rcases List.mem_append.mp hm with h | h
  · split at h
    · simp only [List.mem_cons, List.not_mem_nil, or_false] at h
      rcases h with h | h <;> subst h
      · exact ⟨("rsc").toList, by decide⟩
      · exact isSuffix_crlf _
    · simp at h
  · rw [List.mem_flatten] at h
    obtain ⟨blk, hblk, hcmd⟩ := h
    rw [List.mem_map] at hblk
    obtain ⟨ch, _, hb⟩ := hblk
    subst hb
    exact mem_channelBlock_crlf _ ch cmd hcmd

theorem c7_amended_witness :
    generate_shutter_command ("1234") ("open") [3, 4] =
        (if ("1234" : String) ≠ ("") then
            [("rsc\r\n"), ("1234" : String) ++ ("\r\n")]
          else []) ++
          (([3, 4] : List ℕ).map
              (fun ch => channelBlock ch (claimVerb ("open")))).flatten ∧
      ∀ cmd ∈ generate_shutter_command ("1234") ("open") [3, 4],
        List.IsSuffix (['\r', '\n']) cmd.toList :=
  c7_amended ("1234") ("open") [3, 4] (by decide)

/-! ## Claims C3, C8: parse_skd_climate_data -/

theorem nth?_map (f : α → β) :
    ∀ (l : List α) (i : ℕ), nth? (l.map f) i = (nth? l i).map f := by
  intro l
  induction l with
  | nil => intro i; rfl
  | cons a t ih =>
    intro i
    cases i with
    | zero => rfl
    | succ n => exact ih n

theorem nth?_setAt_ne :
    ∀ (l : List α) (j i : ℕ) (b : α), i ≠ j →
      nth? (listSetAt l j b) i = nth? l i := by
  intro l
  induction l with
  | nil => intro j i b _; rfl
  | cons a t ih =>
    intro j i b hne
    cases j with
    | zero =>
      cases i with
      | zero => exact absurd rfl hne
      | succ n => rfl
    | succ m =>
      cases i with
      | zero => rfl
      | succ n => exact ih m n b (fun hh => hne (by rw [hh]))

theorem listMapM_nth? (f : α → Option β) :
    ∀ (l : List α) (r : List β), listMapM f l = some r →
      ∀ i, (nth? l i).bind f = nth? r i := by
  intro l
  induction l with
  | nil =>
    intro r h i
    simp [listMapM] at h
    subst h
    cases i <;> rfl
  | cons a t ih =>
    intro r h i
    cases hfa : f a with
    | none => simp [listMapM, hfa] at h
    | some b =>
      cases hrec : listMapM f t with
      | none => simp [listMapM, hfa, hrec] at h
      | some r₂ =>
        simp only [listMapM, hfa, hrec] at h
        injection h with h₂
        subst h₂
        cases i with
        | zero => simp [nth?, hfa]
        | succ n => simpa [nth?] using ih r₂ hrec n

theorem nthD_eq_nth? : ∀ (l : List α) (i : ℕ) (d : α), nthD l i d = (nth? l i).getD d := by
  intro l
  induction l with
  | nil => intro i d; cases i <;> rfl
  | cons a t ih =>
    intro i d
    cases i with
    | zero => rfl
    | succ n => exact ih n d

theorem combineTemp_none_left (y : Option Int) :
    combineTemp Option.none y = some ClimVal.absent := by
  cases y <;> rfl

theorem combineTemp_none_right (x : Option Int) :
    combineTemp x Option.none = some ClimVal.absent := by
  cases x <;> rfl

theorem skdFromFields_sentinel :
    ∀ (fields : List (List Char)) (cd : ClimateData),
      skdFromFields fields = some cd →
        (nth? fields 0 = some (("999").toList) → cd.brightness = ClimVal.absent) ∧
        (nth? fields 1 = some (("999").toList) → cd.indoorTemperature = ClimVal.absent) ∧
        (nth? fields 2 = some (("999").toList) → cd.indoorTemperature = ClimVal.absent) ∧
        (nth? fields 3 = some (("999").toList) → cd.indoorTemperatureMin = ClimVal.absent) ∧
        (nth? fields 4 = some (("999").toList) → cd.indoorTemperatureMax = ClimVal.absent) ∧
        (nth? fields 5 = some (("999").toList) → cd.outdoorTemperature = ClimVal.absent) ∧
        (nth? fields 6 = some (("999").toList) → cd.outdoorTemperature = ClimVal.absent) ∧
        (nth? fields 7 = some (("999").toList) → cd.outdoorTemperatureMin = ClimVal.absent) ∧
        (nth? fields 8 = some (("999").toList) → cd.outdoorTemperatureMax = ClimVal.absent) ∧
        (nth? fields 9 = some (("999").toList) → cd.currentWindSpeed = ClimVal.absent) ∧
        (nth? fields 10 = some (("999").toList) → cd.currentWindSpeedMax = ClimVal.absent) ∧
        (nth? fields 11 = some (("999").toList) → cd.alarm = ClimVal.absent) ∧
        (nth? fields 12 = some (("999").toList) → cd.rain = ClimVal.absent) ∧
        (nth? fields 14 = some (("999").toList) → cd.brightnessMedium = ClimVal.absent) ∧
        (nth? fields 15 = some (("999").toList) → cd.relativeHumidity = ClimVal.absent) := by
  intro fields cd h
  unfold skdFromFields at h
  split at h
  · exact absurd h (by simp)
  · split at h
    · simp at h
    · rename_i vals hm
      split at h
      · rename_i indoor outdoor hin hout
        simp only [Option.some.injEq] at h
        subst h
        have valNone : ∀ i : ℕ, i ≠ 16 → nth? fields i = some (("999").toList) →
            nthD vals i Option.none = Option.none := by
          intro i hne hf
          have h₁ : nth? (skdSentinel fields) i = some Option.none := by
            unfold skdSentinel
            rw [nth?_map, hf]
            simp
          have h₂ : nth? (listSetAt (skdSentinel fields) 16 Option.none) i =
              some Option.none := by
            rw [nth?_setAt_ne _ _ _ _ hne, h₁]
          have h₃ := listMapM_nth? convInt _ vals hm i
          rw [h₂] at h₃
          have h₄ : nth? vals i = some Option.none := by rw [← h₃]; rfl
          rw [nthD_eq_nth?, h₄]
          rfl
        refine ⟨?_, ?_, ?_, ?_, ?_, ?_, ?_, ?_, ?_, ?_, ?_, ?_, ?_, ?_, ?_⟩
        · intro hf
          show toClim (nthD vals 0 Option.none) = ClimVal.absent
          rw [valNone 0 (by decide) hf]
          rfl
        · intro hf
          show indoor = ClimVal.absent
          have h₅ := hin
          rw [valNone 1 (by decide) hf, combineTemp_none_left] at h₅
          exact (Option.some.inj h₅).symm
        · intro hf
          show indoor = ClimVal.absent
          have h₅ := hin
          rw [valNone 2 (by decide) hf, combineTemp_none_right] at h₅
          exact (Option.some.inj h₅).symm
        · intro hf
          show toClim (nthD vals 3 Option.none) = ClimVal.absent
          rw [valNone 3 (by decide) hf]
          rfl
        · intro hf
          show toClim (nthD vals 4 Option.none) = ClimVal.absent
          rw [valNone 4 (by decide) hf]
          rfl
        · intro hf
          show outdoor = ClimVal.absent
          have h₅ := hout
          rw [valNone 5 (by decide) hf, combineTemp_none_left] at h₅
          exact (Option.some.inj h₅).symm
        · intro hf
          show outdoor = ClimVal.absent
          have h₅ := hout
          rw [valNone 6 (by decide) hf, combineTemp_none_right] at h₅
          exact (Option.some.inj h₅).symm
        · intro hf
          show toClim (nthD vals 7 Option.none) = ClimVal.absent
          rw [valNone 7 (by decide) hf]
          rfl
        · intro hf
          show toClim (nthD vals 8 Option.none) = ClimVal.absent
          rw [valNone 8 (by decide) hf]
          rfl
        · intro hf
          show toClim (nthD vals 9 Option.none) = ClimVal.absent
          rw [valNone 9 (by decide) hf]
          rfl
        · intro hf
          show toClim (nthD vals 10 Option.none) = ClimVal.absent
          rw [valNone 10 (by decide) hf]
          rfl
        · intro hf
          show toClim (nthD vals 11 Option.none) = ClimVal.absent
          rw [valNone 11 (by decide) hf]
          rfl
        · intro hf
          show toClim (nthD vals 12 Option.none) = ClimVal.absent
          rw [valNone 12 (by decide) hf]
          rfl
        · intro hf
          show toClim (nthD vals 14 Option.none) = ClimVal.absent
          rw [valNone 14 (by decide) hf]
          rfl
        · intro hf
          show toClim (nthD vals 15 Option.none) = ClimVal.absent
          rw [valNone 15 (by decide) hf]
          rfl
      all_goals simp at h

/-- C8: whenever `parse_skd_climate_data` returns a climate snapshot, a
wire field holding the sentinel `999` decodes to the absent value for the
dict key it feeds (including both halves of the combined temperature
fields), never to the number 999. -/
theorem c8_sentinel :
    ∀ (line : String) (cd : ClimateData),
      parse_skd_climate_data line = some (SkdResult.data cd) →
        (nth? (skdFields line) 0 = some (("999").toList) → cd.brightness = ClimVal.absent) ∧
        (nth? (skdFields line) 1 = some (("999").toList) → cd.indoorTemperature = ClimVal.absent) ∧
        (nth? (skdFields line) 2 = some (("999").toList) → cd.indoorTemperature = ClimVal.absent) ∧
        (nth? (skdFields line) 3 = some (("999").toList) → cd.indoorTemperatureMin = ClimVal.absent) ∧
        (nth? (skdFields line) 4 = some (("999").toList) → cd.indoorTemperatureMax = ClimVal.absent) ∧
        (nth? (skdFields line) 5 = some (("999").toList) → cd.outdoorTemperature = ClimVal.absent) ∧
        (nth? (skdFields line) 6 = some (("999").toList) → cd.outdoorTemperature = ClimVal.absent) ∧
        (nth? (skdFields line) 7 = some (("999").toList) → cd.outdoorTemperatureMin = ClimVal.absent) ∧
        (nth? (skdFields line) 8 = some (("999").toList) → cd.outdoorTemperatureMax = ClimVal.absent) ∧
        (nth? (skdFields line) 9 = some (("999").toList) → cd.currentWindSpeed = ClimVal.absent) ∧
        (nth? (skdFields line) 10 = some (("999").toList) → cd.currentWindSpeedMax = ClimVal.absent) ∧
        (nth? (skdFields line) 11 = some (("999").toList) → cd.alarm = ClimVal.absent) ∧
        (nth? (skdFields line) 12 = some (("999").toList) → cd.rain = ClimVal.absent) ∧
        (nth? (skdFields line) 14 = some (("999").toList) → cd.brightnessMedium = ClimVal.absent) ∧
        (nth? (skdFields line) 15 = some (("999").toList) → cd.relativeHumidity = ClimVal.absent) := by
  intro line cd h
  unfold parse_skd_climate_data at h
  split at h
  · have h₂ : skdFromFields (skdFields line) = some cd := by
      cases hx : skdFromFields (skdFields line) with
      | none => rw [hx] at h; simp at h
      | some cd₂ => rw [hx] at h; simp at h; rw [h]
    exact skdFromFields_sentinel _ _ h₂
  · simp at h

theorem c8_sentinel_witness :
    nth?
        (skdFields
          ("start_skd999,999,999,999,999,999,999,999,999,999,999,999,999,999,999,999,ende_skd"))
        0 =
      some (("999").toList) ∧
      ClimVal.absent = ClimVal.absent :=
  ⟨by decide,
    (c8_sentinel
        ("start_skd999,999,999,999,999,999,999,999,999,999,999,999,999,999,999,999,ende_skd")
        ⟨ClimVal.absent, ClimVal.absent, ClimVal.absent, ClimVal.absent,
          ClimVal.absent, ClimVal.absent, ClimVal.absent, ClimVal.absent,
          ClimVal.absent, ClimVal.absent, ClimVal.absent, ClimVal.absent,
          ClimVal.absent⟩
        (by decide)).1
      (by decide)⟩

/-- C3, code_bug evaluation: an `skd` frame whose interior payload is
malformed makes `parse_skd_climate_data` raise instead of returning a
dict — `IndexError` at `data_list[16] = None` when fewer than 17 comma
fields arrive, and `ValueError` from `int(...)` on non-numeric text; the
raised exception (modelled `Option.none`) escapes to the read loop, whose
generic handler disconnects and stops reading. -/
theorem c3_skd_raises :
    parse_skd_climate_data ("start_skd1,2,ende_skd") = Option.none ∧
      parse_skd_climate_data
          ("start_skdabc,2,3,4,5,6,7,8,9,10,11,12,13,14,15,16,ende_skd") =
        Option.none := by
  decide

end Heytech
